import Mathlib

/-!
Verification of the notification synchronization engine of the
`react-notify` repository (file `src/App.jsx`), shallowly embedded in Lean.

The embedding models:
- the notification record shape built and manipulated by the client;
- the store operations performed through `setNotifications` updaters
  (`handleNewNotification`, `markAsRead`, `deleteNotification`,
  `markAllAsRead`, and the seeding done in `loadUserProfile`);
- the WebSocket `onmessage` handler (parse, type dispatch, record
  construction with fallbacks);
- the `onclose` reconnect timer of `useWebSocket`;
- the bootstrap ordering of `loadUserProfile` relative to the
  WebSocket effect of `useWebSocket`, as a trace of app states.

Asynchrony is modelled by explicit parameters: the success or failure of a
remote REST call is a `Bool` (or a per-id `String → Bool` function), and
operations whose local effect depends on the timing of the remote call are
given as traces (lists of successive store states), the head being the
store state at the moment the remote call is issued and still in flight.
-/

namespace ReactNotify

/-- A notification record as the client builds and stores it.  Fields mirror
the object literals of `App.jsx`: the WebSocket handler builds
`{id, title, message, notification_type, data, timestamp, created_at,
read, is_read}`; `notification_type` is `notificationData.type ||
notificationData.notification_type` and may be absent (JS `undefined`),
hence `Option String`. -/
structure Notif where
  id : String
  title : String
  message : String
  notification_type : Option String
  payload : String
  timestamp : String
  created_at : String
  read : Bool
  is_read : Bool
deriving DecidableEq, Repr

/-- The notification store: the `notifications` state array, newest first. -/
abbrev Store := List Notif

/-- The store-updater of `handleNewNotification` (App.jsx lines 283-290):
if a record with the same `id` already exists (`prev.some(...)`) the
previous array is returned unchanged, otherwise the new record is
prepended. -/
def mergePush (r : Notif) (prev : Store) : Store :=
  if prev.any (fun n => n.id == r.id) then prev else r :: prev

/-- The whole of `handleNewNotification` (App.jsx lines 281-299): updates the
store via `mergePush`, and surfaces a native browser alert whenever
`Notification.permission === "granted"`, unconditionally on whether the
merge inserted anything.  Returns the new store and whether the alert was
surfaced. -/
def handleNewNotification (permissionGranted : Bool) (r : Notif)
    (prev : Store) : Store × Bool :=
  (mergePush r prev, permissionGranted)

/-- Payload of a `type: "notification"` WebSocket frame (the `data.data`
object); every field the handler reads can be absent except the ones it
passes through verbatim. -/
structure PushData where
  id : Option String
  title : String
  message : String
  ptype : Option String
  notif_type : Option String
  payload : String
  created_at : Option String
deriving DecidableEq, Repr

/-- A successfully parsed WebSocket frame, discriminated by its `type`
field as in `ws.onmessage` (App.jsx lines 158-184): `"notification"`,
`"unread_count"`, or anything else. -/
inductive Frame where
  | notifFrame (d : PushData)
  | unreadCount (count : Nat)
  | otherType (t : String)
deriving DecidableEq, Repr

/-- Record construction in `ws.onmessage` for a `"notification"` frame:
`id: notificationData.id || Date.now().toString()`,
`notification_type: notificationData.type || notificationData.notification_type`,
`timestamp`/`created_at`: `notificationData.created_at || new Date().toISOString()`,
`read: false, is_read: false`.  `now` and `nowIso` are the clock values. -/
def toRecord (now nowIso : String) (d : PushData) : Notif :=
  { id := d.id.getD now
    title := d.title
    message := d.message
    notification_type := d.ptype.orElse (fun _ => d.notif_type)
    payload := d.payload
    timestamp := d.created_at.getD nowIso
    created_at := d.created_at.getD nowIso
    read := false
    is_read := false }

/-- The `ws.onmessage` handler (App.jsx lines 158-184) as a store
transformer.  A raw frame is `none` when `JSON.parse` throws (the catch
block logs and changes nothing); a parsed frame dispatches on `type`:
`"notification"` merges the constructed record, `"unread_count"` only
logs, any other type matches no branch and changes nothing.  The function
is total: no exception escapes the handler. -/
def wsHandleMessage (now nowIso : String) (raw : Option Frame)
    (store : Store) : Store :=
  match raw with
  | none => store
  | some (Frame.notifFrame d) => mergePush (toRecord now nowIso d) store
  | some (Frame.unreadCount _) => store
  | some (Frame.otherType _) => store

/-- The `setNotifications` updater of `markAsRead` (App.jsx lines 355-361):
map over the store, setting `read` and `is_read` true on the record whose
`id` matches, spreading all other fields; all other records unchanged. -/
def applyReadLocal (nid : String) (store : Store) : Store :=
  store.map (fun n =>
    if n.id == nid then { n with read := true, is_read := true } else n)

/-- `markAsRead` (App.jsx lines 352-373) as a trace of store states.
The code first awaits `api.markNotificationAsRead` and only then calls
`setNotifications`; on a rejected remote call the catch block logs and the
store is never touched.  The head of the trace is the store state while
the remote call is in flight; the last element is the final store. -/
def markAsReadTrace (remoteOk : Bool) (nid : String) (store : Store) :
    List Store :=
  if remoteOk then [store, applyReadLocal nid store] else [store]

/-- `deleteNotification` (App.jsx lines 376-385) as a trace of store
states: the remote DELETE is awaited first; only on success does
`setNotifications` filter the record out; on failure the catch block logs
and the store is untouched.  Head of the trace = store while the remote
call is in flight. -/
def deleteNotificationTrace (remoteOk : Bool) (nid : String)
    (store : Store) : List Store :=
  if remoteOk then [store, store.filter (fun n => n.id != nid)] else [store]

/-- The unread test of `markAllAsRead` (App.jsx line 390): `!n.read && !n.is_read`. -/
def isUnread (n : Notif) : Bool := !n.read && !n.is_read

/-- `markAllAsRead` (App.jsx lines 388-407).  The unread subset is computed,
one `api.markNotificationAsRead` is issued per unread record, and the
results are joined with `Promise.all`, which rejects as soon as any single
call rejects.  `remoteOk nid` tells whether the remote call for record
`nid` succeeds.  Only when every per-record call succeeds does
`setNotifications` run, mapping every record (unread or not) to
`read: true, is_read: true`; if any call fails the catch block logs and
the store is unchanged. -/
def markAllAsRead (remoteOk : String → Bool) (store : Store) : Store :=
  let unread := store.filter isUnread
  if unread.all (fun n => remoteOk n.id) then
    store.map (fun n => { n with read := true, is_read := true })
  else store

/-- The shape of the bulk-fetch response, normalized in `loadUserProfile`
(App.jsx lines 261-265): either `{notifications: [...]}` or a bare array;
anything else yields the empty list. -/
inductive FetchResult where
  | wrapped (l : List Notif)
  | bare (l : List Notif)
  | malformedShape
deriving DecidableEq, Repr

/-- The normalization of the bulk-fetch response (App.jsx lines 261-265). -/
def normalizeNotifications : FetchResult → List Notif
  | FetchResult.wrapped l => l
  | FetchResult.bare l => l
  | FetchResult.malformedShape => []

/-- App-level state relevant to bootstrap ordering: the `user` state (the
WebSocket effect keys on `user?.id`) and the `notifications` state. -/
structure AppState where
  user : Option String
  notifications : Store
deriving DecidableEq, Repr

/-- The success path of `loadUserProfile` (App.jsx lines 253-278) as a trace
of app states: `setUser(profileData)` runs first (state `s1`), then
`api.getNotifications()` is awaited and its normalization seeds the store
via `setNotifications` (state `s2`).  The trace is
`[initial, after setUser, after seeding]`. -/
def loadUserProfileTrace (uid : String) (fetched : FetchResult)
    (s0 : AppState) : List AppState :=
  let s1 : AppState := { s0 with user := some uid }
  let s2 : AppState := { s1 with notifications := normalizeNotifications fetched }
  [s0, s1, s2]

/-- The guard of the `useWebSocket` effect (App.jsx lines 136-137): the
connection attempt is made exactly when a `userId` is present (token
presence aside, the `if (!userId) return` check). -/
def wsConnectEnabled (s : AppState) : Bool := s.user.isSome

/-- State of the `useWebSocket` hook relevant to reconnection: connection
flag, socket presence, number of armed `setTimeout` reconnect timers, and
number of `connect` attempts actually performed by those timers. -/
structure ReconnState where
  isConnected : Bool
  hasSocket : Bool
  pendingTimers : Nat
  connectAttempts : Nat
deriving DecidableEq, Repr

/-- `ws.onclose` (App.jsx lines 186-198): sets `isConnected` false, clears
the socket, and for any closure code other than 1000 arms a 5-second
`setTimeout`; nothing guards against a timer already pending. -/
def onClose (code : Nat) (s : ReconnState) : ReconnState :=
  let s1 : ReconnState := { s with isConnected := false, hasSocket := false }
  if code ≠ 1000 then { s1 with pendingTimers := s1.pendingTimers + 1 }
  else s1

/-- The firing of one of the timers armed by `ws.onclose` (App.jsx lines
193-196): the callback body only logs "Attempting to reconnect..." (with a
comment deferring to the effect dependencies, which do not change); it
performs no `connect` call and creates no socket. -/
def timerFire (s : ReconnState) : ReconnState :=
  { s with pendingTimers := s.pendingTimers - 1 }

/-- Initial hook state before any closure. -/
def reconnInit : ReconnState :=
  { isConnected := true, hasSocket := true
    pendingTimers := 0, connectAttempts := 0 }

/-- A sample record with a given id and read status, used in concrete
witnesses and counterexamples. -/
def exRec (i : String) (rd : Bool) : Notif :=
  { id := i, title := "t", message := "m", notification_type := none
    payload := "", timestamp := "", created_at := ""
    read := rd, is_read := rd }

/-- Remote outcome function failing exactly on id "b". -/
def exRemote : String → Bool := fun i => i == "a"

/-- Helper: a merge whose id is already present returns the previous store
unchanged (the `exists` early return in `handleNewNotification`). -/
theorem mergePush_of_mem (r : Notif) (store : Store)
    (h : ∃ n ∈ store, n.id = r.id) : mergePush r store = store := by
  have ha : store.any (fun n => n.id == r.id) = true := by
    obtain ⟨n, hn, he⟩ := h
    exact List.any_eq_true.mpr ⟨n, hn, by simp [he]⟩
  simp [mergePush, ha]

/-- Helper: a merge whose id is fresh prepends the record. -/
theorem mergePush_of_forall_ne (r : Notif) (store : Store)
    (h : ∀ n ∈ store, n.id ≠ r.id) : mergePush r store = r :: store := by
  have ha : store.any (fun n => n.id == r.id) = false := by
    rw [List.any_eq_false]
    intro n hn
    simp [h n hn]
  simp [mergePush, ha]

/-- Claim C5: for every store state and every mergePush of a record whose id
is already present in the store, the operation is a no-op: the store's
contents, order and size are unchanged, so records remain unique by id and
a readState already true is never reset to false by a later mergePush
sharing that id. -/
theorem c5_mergePush_duplicate_noop (r : Notif) (store : Store)
    (h : ∃ n ∈ store, n.id = r.id) :
    mergePush r store = store
    ∧ (mergePush r store).length = store.length
    ∧ ∀ n ∈ store, n.read = true → n ∈ mergePush r store := by
  have he := mergePush_of_mem r store h
  exact ⟨he, by rw [he], fun n hn _ => by rw [he]; exact hn⟩

/-- Witness for C5 at a concrete input: pushing a second record with id "a"
into a store already holding a read record with id "a" changes nothing. -/
theorem c5_witness :
    (∃ n ∈ ([exRec "a" true] : Store), n.id = (exRec "a" false).id)
    ∧ mergePush (exRec "a" false) [exRec "a" true] = [exRec "a" true] :=
  ⟨by decide,
   (c5_mergePush_duplicate_noop (exRec "a" false) [exRec "a" true]
      (by decide)).1⟩

/-- Claim C6: after seeding with the bulk-fetch result `[r1, r2, r3]`
(kept in gateway order by the normalization) and then merging a pushed
record `r4` with a fresh id, the store order is exactly
`[r4, r1, r2, r3]`. -/
theorem c6_seed_then_push_order (r1 r2 r3 r4 : Notif)
    (h1 : r1.id ≠ r4.id) (h2 : r2.id ≠ r4.id) (h3 : r3.id ≠ r4.id) :
    mergePush r4 (normalizeNotifications (FetchResult.wrapped [r1, r2, r3]))
      = [r4, r1, r2, r3]
    ∧ (∀ l, normalizeNotifications (FetchResult.wrapped l) = l)
    ∧ (∀ l, normalizeNotifications (FetchResult.bare l) = l) := by
  refine ⟨?_, fun l => rfl, fun l => rfl⟩
  show mergePush r4 [r1, r2, r3] = [r4, r1, r2, r3]
  apply mergePush_of_forall_ne
  intro n hn
  have hn3 : n = r1 ∨ n = r2 ∨ n = r3 := by simpa using hn
  rcases hn3 with h | h | h <;> subst h
  · exact h1
  · exact h2
  · exact h3

/-- Witness for C6 at concrete distinct ids. -/
theorem c6_witness :
    mergePush (exRec "d" false)
      (normalizeNotifications
        (FetchResult.wrapped [exRec "a" false, exRec "b" false, exRec "c" false]))
      = [exRec "d" false, exRec "a" false, exRec "b" false, exRec "c" false] :=
  (c6_seed_then_push_order (exRec "a" false) (exRec "b" false)
      (exRec "c" false) (exRec "d" false)
      (by decide) (by decide) (by decide)).1

/-- Claim C7: delete removes the record only after the remote DELETE
resolves successfully.  The head of the trace (the store while the remote
call is in flight) is always the unmodified store; on remote failure the
whole trace is the unchanged store, so every record remains intact and
visible; on success the final store is the filtered store, and every
record with a different id survives. -/
theorem c7_delete_only_after_confirm (nid : String) (store : Store) :
    deleteNotificationTrace false nid store = [store]
    ∧ (∀ ok : Bool, (deleteNotificationTrace ok nid store).head? = some store)
    ∧ (deleteNotificationTrace true nid store).getLast?
        = some (store.filter (fun n => n.id != nid))
    ∧ ∀ n ∈ store, n.id ≠ nid →
        ∀ final, (deleteNotificationTrace true nid store).getLast? = some final →
          n ∈ final := by
  refine ⟨rfl, ?_, rfl, ?_⟩
  · intro ok
    cases ok <;> rfl
  · intro n hn hne final hfin
    have hfinal : final = store.filter (fun n => n.id != nid) := by
      simpa [deleteNotificationTrace] using hfin.symm
    subst hfinal
    refine List.mem_filter.mpr ⟨hn, ?_⟩
    simp [hne]

/-- Witness for C7: the membership clause at a concrete store where the
remote delete of "a" succeeds and the record with id "b" survives. -/
theorem c7_witness :
    (exRec "b" true) ∈
      ([exRec "b" true] : Store).filter (fun n => n.id != "a") :=
  (c7_delete_only_after_confirm "a" [exRec "b" true]).2.2.2
    (exRec "b" true) (by decide) (by decide)
    (([exRec "b" true] : Store).filter (fun n => n.id != "a")) (by decide)

/-- Claim C8: an inbound frame whose payload fails JSON parsing (`none`),
or whose `type` discriminator is unrecognized, is discarded: the store is
unchanged, and the handler — a total function in this embedding, mirroring
the enclosing try/catch — raises nothing. -/
theorem c8_bad_frame_discarded (now nowIso : String) (raw : Option Frame)
    (store : Store)
    (h : raw = none ∨ ∃ t, raw = some (Frame.otherType t)) :
    wsHandleMessage now nowIso raw store = store := by
  rcases h with h | ⟨t, h⟩ <;> subst h <;> rfl

/-- Witness for C8: an unrecognized frame type on a concrete store. -/
theorem c8_witness :
    wsHandleMessage "0" "i" (some (Frame.otherType "ping")) [exRec "a" false]
      = [exRec "a" false] :=
  c8_bad_frame_discarded "0" "i" (some (Frame.otherType "ping"))
    [exRec "a" false] (Or.inr ⟨"ping", rfl⟩)

/-- Claim C10: the local read update touches only the record whose id
matches — that record gets `read` and `is_read` set true while all its
other fields are preserved — and every other record, as well as the length
and the position of every record, is left unchanged. -/
theorem c10_applyRead_frame (nid : String) (store : Store) (i : Nat) :
    (applyReadLocal nid store).length = store.length
    ∧ ∀ n, store.get? i = some n →
        ∃ m, (applyReadLocal nid store).get? i = some m
          ∧ m.id = n.id ∧ m.title = n.title ∧ m.message = n.message
          ∧ m.notification_type = n.notification_type
          ∧ m.payload = n.payload ∧ m.timestamp = n.timestamp
          ∧ m.created_at = n.created_at
          ∧ (n.id ≠ nid → m = n)
          ∧ (n.id = nid → m.read = true ∧ m.is_read = true) := by
  refine ⟨by simp [applyReadLocal], ?_⟩
  intro n hn
  refine ⟨if n.id == nid then { n with read := true, is_read := true } else n,
    ?_, ?_⟩
  · rw [List.get?_eq_getElem?] at hn
    simp only [applyReadLocal, List.get?_eq_getElem?, List.getElem?_map, hn]
    rfl
  · by_cases h : n.id = nid
    · simp [h]
    · have hb : (n.id == nid) = false := by simpa using h
      simp [hb, h]

/-- Witness for C10: applying the read at a two-record store, position 0
matches and gets its flags set with everything else preserved. -/
theorem c10_witness :
    ∃ m, (applyReadLocal "a" [exRec "a" false, exRec "b" false]).get? 0 = some m
      ∧ m.read = true ∧ m.is_read = true ∧ m.title = (exRec "a" false).title := by
  obtain ⟨-, h2⟩ := c10_applyRead_frame "a" [exRec "a" false, exRec "b" false] 0
  obtain ⟨m, hm, -, ht, -, -, -, -, -, -, hr⟩ := h2 (exRec "a" false) (by rfl)
  exact ⟨m, hm, (hr rfl).1, (hr rfl).2, ht⟩

/-- Counterexample to claim C1 as stated: a store with two unread records
"a" and "b", where the remote confirmation for "a" succeeds and the one
for "b" fails (`exRemote`).  `markAllAsRead` leaves the store completely
unchanged, so record "a", whose remote confirmation succeeded, still has
`read = false` and `is_read = false` afterward. -/
theorem c1_counterexample :
    exRemote (exRec "a" false).id = true
    ∧ exRemote (exRec "b" false).id = false
    ∧ isUnread (exRec "a" false) = true ∧ isUnread (exRec "b" false) = true
    ∧ markAllAsRead exRemote [exRec "a" false, exRec "b" false]
        = [exRec "a" false, exRec "b" false]
    ∧ (exRec "a" false).read = false ∧ (exRec "a" false).is_read = false := by
  decide

/-- Claim C1 amended: `markAllAsRead` is all-or-nothing on the local store.
`Promise.all` rejects as soon as any per-record confirmation fails, so if
any unread record's confirmation fails no record's readState is updated at
all; only when every confirmation succeeds is the update applied, and then
it marks every record read. -/
theorem c1_markAllAsRead_allOrNothing (remoteOk : String → Bool)
    (store : Store) :
    ((∃ n ∈ store.filter isUnread, remoteOk n.id = false) →
        markAllAsRead remoteOk store = store)
    ∧ ((∀ n ∈ store.filter isUnread, remoteOk n.id = true) →
        markAllAsRead remoteOk store
          = store.map (fun n => { n with read := true, is_read := true })) := by
  constructor
  · rintro ⟨n, hn, hfail⟩
    have hall : (store.filter isUnread).all (fun n => remoteOk n.id) = false :=
      List.all_eq_false.mpr ⟨n, hn, by simp [hfail]⟩
    simp [markAllAsRead, hall]
  · intro hok
    have hall : (store.filter isUnread).all (fun n => remoteOk n.id) = true :=
      List.all_eq_true.mpr (fun n hn => hok n hn)
    simp [markAllAsRead, hall]

/-- Witness for the amended C1 at a concrete input: with the confirmation
for "b" failing, the two-record store is left unchanged. -/
theorem c1_witness :
    (∃ n ∈ ([exRec "a" false, exRec "b" false] : Store).filter isUnread,
        exRemote n.id = false)
    ∧ markAllAsRead exRemote [exRec "a" false, exRec "b" false]
        = [exRec "a" false, exRec "b" false] :=
  ⟨by decide,
   (c1_markAllAsRead_allOrNothing exRemote
      [exRec "a" false, exRec "b" false]).1 (by decide)⟩

/-- Counterexample to claim C2 as stated: at the moment the remote
confirmation call is in flight (the head of the `markAsRead` trace), the
store is still the original one and the targeted record's read flags are
still false — the read is not applied optimistically before the remote
call resolves (and the record shape carries no pending-mutation field at
all). -/
theorem c2_counterexample :
    (markAsReadTrace true "a" [exRec "a" false]).head?
      = some [exRec "a" false]
    ∧ (exRec "a" false).read = false
    ∧ (exRec "a" false).is_read = false := by
  decide

/-- Claim C2 amended: the read mutation is applied only after the remote
confirmation resolves successfully — the store while the remote call is in
flight is the unmodified store, on success the final store is the local
read update, and on remote failure the store is never touched. -/
theorem c2_read_applied_after_confirm (nid : String) (store : Store) :
    (markAsReadTrace true nid store).head? = some store
    ∧ (markAsReadTrace true nid store).getLast?
        = some (applyReadLocal nid store)
    ∧ markAsReadTrace false nid store = [store] :=
  ⟨rfl, rfl, rfl⟩

/-- Counterexample to claim C3 as stated: in the success trace of
`loadUserProfile`, the state right after `setUser` (index 1) already
enables the WebSocket connect while the store is still unseeded; a push
merged at that point is inserted, and the subsequent seeding replaces the
store with the fetched list, which does not contain the pushed record — it
is lost. -/
theorem c3_counterexample :
    (loadUserProfileTrace "u1" (FetchResult.bare [exRec "s" false])
        ⟨none, []⟩).get? 1 = some ⟨some "u1", []⟩
    ∧ wsConnectEnabled ⟨some "u1", []⟩ = true
    ∧ mergePush (exRec "p" false) [] = [exRec "p" false]
    ∧ normalizeNotifications (FetchResult.bare [exRec "s" false])
        = [exRec "s" false]
    ∧ (exRec "p" false) ∉ ([exRec "s" false] : Store) := by
  decide

/-- Claim C3 amended: the WebSocket connect is enabled as soon as
`setUser` runs, which precedes the completion of the bulk notification
fetch; the subsequent seeding replaces the store contents outright, so any
record pushed and merged in that window is lost unless it happens to be in
the fetched list. -/
theorem c3_connect_enabled_before_seed (uid : String) (fetched : FetchResult)
    (s0 : AppState) (r : Notif) (h : r ∉ normalizeNotifications fetched) :
    ∃ s1, (loadUserProfileTrace uid fetched s0).get? 1 = some s1
      ∧ wsConnectEnabled s1 = true
      ∧ s1.notifications = s0.notifications
      ∧ ∀ s2, (loadUserProfileTrace uid fetched s0).get? 2 = some s2 →
          s2.notifications = normalizeNotifications fetched
          ∧ r ∉ s2.notifications := by
  refine ⟨{ s0 with user := some uid }, rfl, rfl, rfl, ?_⟩
  intro s2 hs2
  have h2 : s2 = AppState.mk (some uid) (normalizeNotifications fetched) := by
    simpa [loadUserProfileTrace] using hs2.symm
  subst h2
  exact ⟨rfl, h⟩

/-- Witness for the amended C3 at a concrete input. -/
theorem c3_witness :
    ∃ s1, (loadUserProfileTrace "u1" (FetchResult.bare [exRec "s" false])
        ⟨none, [exRec "p" false]⟩).get? 1 = some s1
      ∧ wsConnectEnabled s1 = true
      ∧ s1.notifications = [exRec "p" false]
      ∧ ∀ s2, (loadUserProfileTrace "u1" (FetchResult.bare [exRec "s" false])
          ⟨none, [exRec "p" false]⟩).get? 2 = some s2 →
            s2.notifications = normalizeNotifications
              (FetchResult.bare [exRec "s" false])
            ∧ (exRec "p" false) ∉ s2.notifications :=
  c3_connect_enabled_before_seed "u1" (FetchResult.bare [exRec "s" false])
    ⟨none, [exRec "p" false]⟩ (exRec "p" false) (by decide)

/-- Claim C4 (code bug): an abnormal closure (code 1006) arms the 5-second
timer, but its callback only logs and performs no connect — after the
timer fires no connect attempt has been made and no socket exists — and a
second abnormal closure before the timer fires arms a second pending
timer, so neither the "a connect is actually performed" half nor the
"at most one pending attempt" half of the claim holds in the code. -/
theorem c4_reconnect_timer_is_noop :
    (onClose 1006 reconnInit).pendingTimers = 1
    ∧ (timerFire (onClose 1006 reconnInit)).connectAttempts = 0
    ∧ (timerFire (onClose 1006 reconnInit)).hasSocket = false
    ∧ (onClose 1006 (onClose 1006 reconnInit)).pendingTimers = 2 := by
  decide

/-- Counterexample to claim C9 as stated: a pushed record whose id "a"
duplicates an existing record causes no insertion (the store is returned
unchanged), yet with permission granted the native alert is still
surfaced (`true`) — the alert is not gated on the insertion result. -/
theorem c9_counterexample :
    handleNewNotification true (exRec "a" false) [exRec "a" true]
      = ([exRec "a" true], true) := by
  decide

/-- Claim C9 amended: `handleNewNotification` surfaces the native alert
whenever permission is granted, regardless of whether the merge inserted
the record; in particular a duplicate push that leaves the store unchanged
still triggers the alert. -/
theorem c9_alert_not_gated_on_insertion (perm : Bool) (r : Notif)
    (store : Store) (h : ∃ n ∈ store, n.id = r.id) :
    handleNewNotification perm r store = (store, perm) := by
  unfold handleNewNotification
  rw [mergePush_of_mem r store h]

/-- Witness for the amended C9 at a concrete duplicate push. -/
theorem c9_witness :
    (∃ n ∈ ([exRec "a" true] : Store), n.id = (exRec "a" false).id)
    ∧ handleNewNotification true (exRec "a" false) [exRec "a" true]
        = ([exRec "a" true], true) :=
  ⟨by decide,
   c9_alert_not_gated_on_insertion true (exRec "a" false) [exRec "a" true]
     (by decide)⟩

end ReactNotify
